import Mathlib

/-!
Verification of `scripts/destVersionForMac.py`

A shallow embedding of the WeChat-for-Mac release-automation script
(`destVersionForMac.py`) together with proofs about it.

Modelling conventions:
* Python byte strings are `List Nat` (one `Nat` per byte); text strings are
  Lean `String`.
* Python dicts are association lists in which an assignment *prepends* and a
  lookup takes the *first* match, which realises Python's
  latest-assignment-wins `dict.get` semantics (the script never iterates over
  a dict, so only lookup is observable).
* External effects (the vendor web page, HEAD probes, `wget`, `hdiutil`,
  `gh`, the wall clock) are inputs collected in an `Env` structure; the
  observable actions performed during a run are recorded in a trace of
  `Event`s.
* Exceptions are `Except String` values; a `finally:` block is realised by
  appending its events to every exit path while leaving the result intact.
-/

/-! ## Python string primitives used by the script -/

/-- The ASCII whitespace characters stripped by Python's `str.strip()`. -/
def pyIsSpace (c : Char) : Bool :=
  c = ' ' || c = '\t' || c = '\n' || c = '\r' || c = '\x0b' || c = '\x0c'

/-- Python `str.strip()` on a character list: drop whitespace from both ends. -/
def pyStripChars (l : List Char) : List Char :=
  ((l.dropWhile pyIsSpace).reverse.dropWhile pyIsSpace).reverse

/-- Python `s.strip()`. -/
def pyStrip (s : String) : String := ⟨pyStripChars s.data⟩

/-- Python `s.lstrip(chars)`: drop leading characters belonging to `chars`. -/
def pyLstrip (chars : List Char) (s : String) : String :=
  ⟨s.data.dropWhile (fun c => chars.contains c)⟩

/-- Python `s.lower()` (the script only meets ASCII here). -/
def pyLower (s : String) : String := ⟨s.data.map Char.toLower⟩

/-- Python `sep.join(parts)`. -/
def pyJoin (sep : String) : List String → String
  | [] => ""
  | [l] => l
  | l :: ls => l ++ sep ++ pyJoin sep ls

/-- The line terminators recognised by Python `str.splitlines`. -/
def isLineTerm (c : Char) : Bool :=
  c = '\n' || c = '\r' || c = '\x0b' || c = '\x0c' ||
  c = '\x1c' || c = '\x1d' || c = '\x1e' || c = '\x85' ||
  c.val = 0x2028 || c.val = 0x2029

/-- Worker for `pySplitlines`; `acc` holds the current line reversed, and a
`\r\n` pair counts as a single terminator. -/
def splitlinesAux : List Char → List Char → List (List Char)
  | [], acc => if acc.isEmpty then [] else [acc.reverse]
  | '\r' :: '\n' :: rest, acc => acc.reverse :: splitlinesAux rest []
  | c :: rest, acc =>
      if isLineTerm c then acc.reverse :: splitlinesAux rest []
      else splitlinesAux rest (c :: acc)

/-- Python `s.splitlines()`. -/
def pySplitlines (s : String) : List String :=
  (splitlinesAux s.data []).map (fun l => ⟨l⟩)

/-- Worker for `pySplitWs`; splits on whitespace runs, dropping empties. -/
def pySplitWsAux : List Char → List Char → List (List Char)
  | [], [] => []
  | [], acc => [acc.reverse]
  | c :: rest, acc =>
      if pyIsSpace c then
        if acc.isEmpty then pySplitWsAux rest []
        else acc.reverse :: pySplitWsAux rest []
      else pySplitWsAux rest (c :: acc)

/-- Python `s.split()` with no separator: whitespace runs, no empty parts. -/
def pySplitWs (s : String) : List String :=
  (pySplitWsAux s.data []).map (fun l => ⟨l⟩)

/-- Worker for `splitFirstColon`; `acc` holds the scanned prefix reversed. -/
def splitFirstAux : List Char → List Char → List Char × List Char
  | [], acc => (acc.reverse, [])
  | c :: rest, acc =>
      if c = ':' then (acc.reverse, rest) else splitFirstAux rest (c :: acc)

/-- Python `s.split(":", 1)` for a string containing a colon. -/
def splitFirstColon (s : String) : String × String :=
  let p := splitFirstAux s.data []
  (⟨p.1⟩, ⟨p.2⟩)

/-! ## Python dict, observed only through `get` -/

/-- Python dict assignment `d[k] = v` (latest assignment wins on lookup). -/
def dictSet (d : List (String × String)) (k v : String) :
    List (String × String) := (k, v) :: d

/-- Python `d.get(k, dflt)`. -/
def dictGet (d : List (String × String)) (k dflt : String) : String :=
  match d.find? (fun p => p.1 == k) with
  | some p => p.2
  | none => dflt

/-! ## SHA-256 (the behaviour of `hashlib.sha256`)

`hashlib` guarantees that feeding the chunks of a message through `update`
and then calling `hexdigest` equals hashing the concatenation in one go, so
the hasher state is modelled as the list of absorbed bytes and `hexdigest`
as a full SHA-256 over them.  All words are `Nat`s reduced mod `2^32`. -/

/-- Truncate to a 32-bit word. -/
def w32 (x : Nat) : Nat := x % 4294967296

/-- Rotate a 32-bit word right by `n`. -/
def rotr32 (n x : Nat) : Nat := w32 ((x >>> n) ||| (x <<< (32 - n)))

/-- SHA-256 σ₀. -/
def ssig0 (x : Nat) : Nat := (rotr32 7 x) ^^^ (rotr32 18 x) ^^^ (x >>> 3)

/-- SHA-256 σ₁. -/
def ssig1 (x : Nat) : Nat := (rotr32 17 x) ^^^ (rotr32 19 x) ^^^ (x >>> 10)

/-- SHA-256 Σ₀. -/
def bsig0 (x : Nat) : Nat := (rotr32 2 x) ^^^ (rotr32 13 x) ^^^ (rotr32 22 x)

/-- SHA-256 Σ₁. -/
def bsig1 (x : Nat) : Nat := (rotr32 6 x) ^^^ (rotr32 11 x) ^^^ (rotr32 25 x)

/-- The 64 SHA-256 round constants. -/
def shaK : List Nat :=
  [1116352408, 1899447441, 3049323471, 3921009573,
   961987163, 1508970993, 2453635748, 2870763221,
   3624381080, 310598401, 607225278, 1426881987,
   1925078388, 2162078206, 2614888103, 3248222580,
   3835390401, 4022224774, 264347078, 604807628,
   770255983, 1249150122, 1555081692, 1996064986,
   2554220882, 2821834349, 2952996808, 3210313671,
   3336571891, 3584528711, 113926993, 338241895,
   666307205, 773529912, 1294757372, 1396182291,
   1695183700, 1986661051, 2177026350, 2456956037,
   2730485921, 2820302411, 3259730800, 3345764771,
   3516065817, 3600352804, 4094571909, 275423344,
   430227734, 506948616, 659060556, 883997877,
   958139571, 1322822218, 1537002063, 1747873779,
   1955562222, 2024104815, 2227730452, 2361852424,
   2428436474, 2756734187, 3204031479, 3329325298]

/-- The SHA-256 initial state. -/
def shaH0 : List Nat :=
  [1779033703, 3144134277, 1013904242, 2773480762,
   1359893119, 2600822924, 528734635, 1541459225]

/-- The `count` bytes of `n`, big-endian. -/
def natToBytesBE (n count : Nat) : List Nat :=
  (List.range count).map (fun i => (n >>> (8 * (count - 1 - i))) % 256)

/-- SHA-256 message padding: `0x80`, zeros, 8-byte big-endian bit length. -/
def shaPad (msg : List Nat) : List Nat :=
  let len := msg.length
  let k := (64 - ((len + 9) % 64)) % 64
  msg ++ [0x80] ++ List.replicate k 0 ++ natToBytesBE (len * 8) 8

/-- Pack bytes into 32-bit big-endian words. -/
def toWords : List Nat → List Nat
  | a :: b :: c :: d :: rest => (((a * 256 + b) * 256 + c) * 256 + d) :: toWords rest
  | _ => []

/-- Extend a message schedule by `n` further words. -/
def extendSchedule (w : List Nat) : Nat → List Nat
  | 0 => w
  | n + 1 =>
      let i := w.length
      extendSchedule
        (w ++ [w32 (ssig1 (w.getD (i - 2) 0) + w.getD (i - 7) 0 +
                    ssig0 (w.getD (i - 15) 0) + w.getD (i - 16) 0)]) n

/-- One SHA-256 round on the 8-word working state, given `Kᵢ + Wᵢ`. -/
def shaRound (state : List Nat) (kw : Nat) : List Nat :=
  match state with
  | [a, b, c, d, e, f, g, h] =>
      let ch := (e &&& f) ^^^ ((0xffffffff ^^^ e) &&& g)
      let maj := (a &&& b) ^^^ (a &&& c) ^^^ (b &&& c)
      let t1 := w32 (h + bsig1 e + ch + kw)
      let t2 := w32 (bsig0 a + maj)
      [w32 (t1 + t2), a, b, c, w32 (d + t1), e, f, g]
  | s => s

/-- Compress one 64-byte block into the hash state. -/
def shaCompress (h : List Nat) (block : List Nat) : List Nat :=
  let w := extendSchedule (toWords block) 48
  let kw := List.zipWith (fun k wi => w32 (k + wi)) shaK w
  let final := kw.foldl shaRound h
  List.zipWith (fun x y => w32 (x + y)) h final

/-- A lowercase hex digit. -/
def hexDigit (n : Nat) : Char :=
  if n < 10 then Char.ofNat (48 + n) else Char.ofNat (87 + n)

/-- A 32-bit word as 8 lowercase hex digits. -/
def wordToHex (x : Nat) : List Char :=
  (List.range 8).map (fun i => hexDigit ((x >>> (4 * (7 - i))) % 16))

/-- Worker for `readChunks`.  The fuel starts at the file length; a positive
chunk size consumes at least one byte per step, so it never runs out. -/
def readChunksAux (chunkSize : Nat) : Nat → List Nat → List (List Nat)
  | _, [] => []
  | 0, _ => []
  | fuel + 1, l => l.take chunkSize :: readChunksAux chunkSize fuel (l.drop chunkSize)

/-- Successive `f.read(chunkSize)` results: the file's bytes in order
(`read(0)` immediately yields the empty chunk, ending the loop). -/
def readChunks (chunkSize : Nat) (l : List Nat) : List (List Nat) :=
  if chunkSize = 0 then [] else readChunksAux chunkSize l.length l

/-- Model of `hashlib.sha256(msg).hexdigest()`. -/
def sha256hex (msg : List Nat) : String :=
  let blocks := readChunks 64 (shaPad msg)
  let hf := blocks.foldl shaCompress shaH0
  ⟨(hf.map wordToHex).flatten⟩

/-- Embeds `compute_sha256`: stream the file in `chunkSize`-byte chunks through an
incremental hasher (modelled as the list of absorbed bytes) and hex-digest
the result.  The script uses `chunkSize = 1024 * 1024`. -/
def compute_sha256 (chunkSize : Nat) (content : List Nat) : String :=
  sha256hex ((readChunks chunkSize content).foldl (fun h chunk => h ++ chunk) [])

/-! ### Chunk invariance of the streamed checksum -/

theorem readChunksAux_flatten (c : Nat) (hc : 0 < c) :
    ∀ (fuel : Nat) (l : List Nat), l.length ≤ fuel →
      (readChunksAux c fuel l).flatten = l := by
  intro fuel
  induction fuel with
  | zero =>
    intro l hl
    cases l with
    | nil => simp [readChunksAux]
    | cons a as => simp at hl
  | succ n ih =>
    intro l hl
    cases l with
    | nil => simp [readChunksAux]
    | cons a as =>
      rw [readChunksAux]
      · rw [List.flatten_cons]
        rw [ih ((a :: as).drop c) (by simp at hl ⊢; omega)]
        exact List.take_append_drop c (a :: as)
      · simp

theorem readChunks_flatten (c : Nat) (l : List Nat) (hc : 0 < c) :
    (readChunks c l).flatten = l := by
  rw [readChunks, if_neg (Nat.pos_iff_ne_zero.mp hc)]
  exact readChunksAux_flatten c hc l.length l le_rfl

theorem foldl_append_eq_flatten (ls : List (List Nat)) (acc : List Nat) :
    ls.foldl (fun h chunk => h ++ chunk) acc = acc ++ ls.flatten := by
  induction ls generalizing acc with
  | nil => simp
  | cons x xs ih => simp [List.foldl_cons, ih, List.append_assoc]

/-! ## `DownloadLinkParser` and `fetch_download_link`

`html.parser` itself is external; the embedding works on the stream of
start-tag events it delivers (tag name plus attribute list, an attribute
value being absent for bare attributes). -/

/-- One start-tag event delivered by `html.parser`. -/
structure StartTag where
  tag : String
  attrs : List (String × Option String)

/-- Builds `attrs_dict`, i.e. a dict of the attributes with `None` values
replaced by the empty string (later duplicates winning). -/
def attrsDict (attrs : List (String × Option String)) : List (String × String) :=
  attrs.foldl (fun d kv => dictSet d kv.1 (kv.2.getD "")) []

/-- Embeds `DownloadLinkParser.handle_starttag`, acting on the `link` state. -/
def handle_starttag (link : String) (t : StartTag) : String :=
  if t.tag ≠ "a" ∨ link ≠ "" then link
  else
    let ad := attrsDict t.attrs
    let classes := pySplitWs (dictGet ad "class" "")
    if "download-button" ∈ classes then pyStrip (dictGet ad "href" "")
    else link

/-- Embeds `fetch_download_link`: feed the page's start tags to the parser and fail
if no link was captured. -/
def fetch_download_link (page : List StartTag) : Except String String :=
  let link := page.foldl handle_starttag ""
  if link = "" then .error "Download link not found on website."
  else .ok link

/-- Stated from the claim, for comparison with `fetch_download_link`: the
stripped href of the first anchor in document order whose class attribute
contains the token `download-button` and whose href is non-empty after
stripping. -/
def usableHref (t : StartTag) : Option String :=
  let ad := attrsDict t.attrs
  let href := pyStrip (dictGet ad "href" "")
  if t.tag = "a" ∧ "download-button" ∈ pySplitWs (dictGet ad "class" "") ∧ href ≠ ""
  then some href else none

/-- Stated from the claim: the first usable anchor's stripped href. -/
def specFirstUsableLink (page : List StartTag) : Option String :=
  page.findSome? usableHref

/-! ## `get_tag_from_plist`

The mounted `Info.plist` is modelled as `none` when the file is missing and
otherwise as the parsed dictionary; `str(data.get(k, ""))` keeps strings
unchanged so the read of each field is a `dictGet` followed by `strip()`. -/

/-- Embeds `get_tag_from_plist` on the (optional) parsed `Info.plist` dictionary. -/
def get_tag_from_plist (plist : Option (List (String × String))) :
    Except String String :=
  match plist with
  | none => .error "Info.plist not found in mounted volume."
  | some data =>
    let short_version := pyStrip (dictGet data "CFBundleShortVersionString" "")
    let build := pyStrip (dictGet data "CFBundleVersion" "")
    let version := pyStrip (dictGet data "WeChatBundleVersion" "")
    if short_version = "" then .error "CFBundleShortVersionString not found."
    else if build = "" then .error "CFBundleVersion not found."
    else if version ≠ "" then .ok version
    else .ok (short_version ++ "+build." ++ build)

/-! ## Release-body parsing, release notes and the sidecar file -/

/-- One loop iteration of `parse_release_body`: skip lines without a colon,
otherwise split at the first colon, strip `"- "` bullets and whitespace from
the key, strip the value, and assign. -/
def parseLine (info : List (String × String)) (line : String) :
    List (String × String) :=
  if ':' ∈ line.data then
    let kv := splitFirstColon line
    dictSet info (pyStrip (pyLstrip ['-', ' '] kv.1)) (pyStrip kv.2)
  else info

/-- Embeds `parse_release_body`: collect `Key: Value` lines into a dict. -/
def parse_release_body (body : String) : List (String × String) :=
  (pySplitlines body).foldl parseLine []

/-- Embeds `get_latest_release_info`: the `gh release view` stdout (`none` models a
non-zero exit status) parsed into a dict; failures yield the empty dict. -/
def get_latest_release_info (ghStdout : Option String) : List (String × String) :=
  match ghStdout with
  | none => []
  | some s => if s = "" then [] else parse_release_body s

/-- Embeds `build_release_notes`. -/
def build_release_notes (tag download_link remote_md5 sha256_sum remote_size
    remote_last_modified : String) : String :=
  let lines :=
    ["WeChat for Mac automatic release",
     "",
     "Download and integrity details are below.",
     "",
     "Release details",
     "- DestVersion: " ++ tag,
     "",
     "Source and checksums",
     "- DownloadFrom: " ++ download_link,
     "- Md5: " ++ remote_md5,
     "- Sha256: " ++ sha256_sum]
    ++ (if remote_size ≠ "" then ["- ContentLength: " ++ remote_size] else [])
    ++ (if remote_last_modified ≠ "" then ["- LastModified: " ++ remote_last_modified] else [])
  pyJoin "\n" lines ++ "\n"

/-- Embeds `write_sha_file`, returning the text written to the sidecar file; the
`timestamp` argument models `datetime.now(timezone.utc).strftime(...)`. -/
def write_sha_file (tag download_link sha256_sum remote_md5 remote_size
    remote_last_modified timestamp : String) : String :=
  let lines :=
    ["DestVersion: " ++ tag,
     "Md5: " ++ remote_md5,
     "Sha256: " ++ sha256_sum]
    ++ (if remote_size ≠ "" then ["ContentLength: " ++ remote_size] else [])
    ++ (if remote_last_modified ≠ "" then ["LastModified: " ++ remote_last_modified] else [])
    ++ ["UpdateTime: " ++ timestamp ++ " (UTC)",
        "DownloadFrom: " ++ download_link]
  pyJoin "\n" lines ++ "\n"

/-- The `FORCE_RELEASE` truthiness test: `strip().lower() in {"1","true","yes","on"}`. -/
def forceRelease (envVar : String) : Bool :=
  ["1", "true", "yes", "on"].contains (pyLower (pyStrip envVar))

/-! ## The workflow (`main`) -/

/-- Observable external actions performed during a run. -/
inductive Event where
  | headAttempt (n : Nat)
  | sleep (secs : Nat)
  | downloadAttempt (n : Nat)
  | detach (dir : String)
  | writeSha (text : String)
  | publish (tag : String)
  | rmtree
  deriving Repr, DecidableEq

/-- Is this event a `wget` invocation? -/
def Event.isDownload : Event → Bool
  | .downloadAttempt _ => true
  | _ => false

/-- Is this event a `gh release create` invocation? -/
def Event.isPublish : Event → Bool
  | .publish _ => true
  | _ => false

/-- Is this event a HEAD probe attempt? -/
def Event.isHeadAttempt : Event → Bool
  | .headAttempt _ => true
  | _ => false

/-- Is this event the removal of the working tree? -/
def Event.isRmtree : Event → Bool
  | .rmtree => true
  | _ => false

/-- The external world of one invocation: every input the script consumes.
`headProbe n` / `downloadAttemptOk n` give the outcome of the `n`-th HEAD
probe / `wget` attempt; `none` and `false` model a raised exception. -/
structure Env where
  forceEnv : String
  page : Option (List StartTag)
  headProbe : Nat → Option (List (String × String))
  ghLatest : Option String
  downloadAttemptOk : Nat → Bool
  mountOut : Option String
  plist : Option (List (String × String))
  dmgBytes : List Nat
  tagExists : String → Bool
  utcDate : String
  updateTime : String
  publishOk : Bool

/-- Normalizes headers as in the dict comprehension of `fetch_head_metadata`:
keys lowercased, values stripped, later duplicates winning. -/
def normHeaders (hs : List (String × String)) : List (String × String) :=
  hs.foldl (fun d kv => dictSet d (pyLower kv.1) (pyStrip kv.2)) []

/-- Loop body of `fetch_head_metadata`, indexed by the current attempt number
and the attempts remaining (the script runs `attempt = 1, 2`). -/
def head_go (probe : Nat → Option (List (String × String))) (attempt : Nat) :
    Nat → List Event × List (String × String)
  | 0 => ([], [])
  | 1 =>
    match probe attempt with
    | some hs => ([.headAttempt attempt], normHeaders hs)
    | none => ([.headAttempt attempt], [])
  | n + 2 =>
    match probe attempt with
    | some hs => ([.headAttempt attempt], normHeaders hs)
    | none =>
        let r := head_go probe (attempt + 1) (n + 1)
        (.headAttempt attempt :: .sleep 10 :: r.1, r.2)

/-- Embeds `fetch_head_metadata`: up to 2 attempts, 10 s between them; on total
failure it returns the empty dict instead of raising. -/
def fetch_head_metadata (probe : Nat → Option (List (String × String))) :
    List Event × List (String × String) :=
  head_go probe 1 2

/-- Loop body of `download_with_retry`, indexed like `head_go`. -/
def retry_go (ok : Nat → Bool) (attempt : Nat) :
    Nat → List Event × Except String Unit
  | 0 => ([], .error "Download failed.")
  | 1 =>
    if ok attempt then ([.downloadAttempt attempt], .ok ())
    else ([.downloadAttempt attempt], .error "Download failed.")
  | n + 2 =>
    if ok attempt then ([.downloadAttempt attempt], .ok ())
    else
      let r := retry_go ok (attempt + 1) (n + 1)
      (.downloadAttempt attempt :: .sleep 10 :: r.1, r.2)

/-- Embeds `download_with_retry`: up to 2 `wget` attempts, 10 s between them; if both
fail the last error is re-raised. -/
def download_with_retry (ok : Nat → Bool) : List Event × Except String Unit :=
  retry_go ok 1 2

/-- The remote MD5 read from the HEAD metadata (`x-cos-meta-md5` header). -/
def remoteMd5 (env : Env) : String :=
  dictGet (fetch_head_metadata env.headProbe).2 "x-cos-meta-md5" ""

/-- The latest release's recorded `Md5` value. -/
def latestMd5 (env : Env) : String :=
  dictGet (get_latest_release_info env.ghLatest) "Md5" ""

/-- The latest release's recorded `Sha256` value. -/
def latestSha256 (env : Env) : String :=
  dictGet (get_latest_release_info env.ghLatest) "Sha256" ""

/-- The SHA-256 the script computes over the downloaded image (1 MiB chunks). -/
def artifactSha (env : Env) : String :=
  compute_sha256 (1024 * 1024) env.dmgBytes

/-- The pre-download skip test (`remote_md5 and latest_md5 and
remote_md5 == latest_md5`, not overridden by force release). -/
def skip1 (env : Env) : Prop :=
  remoteMd5 env ≠ "" ∧ latestMd5 env ≠ "" ∧ remoteMd5 env = latestMd5 env ∧
    forceRelease env.forceEnv = false

instance (env : Env) : Decidable (skip1 env) := by unfold skip1; infer_instance

/-- The post-download skip test (`not latest_md5 and latest_sha256 and
sha256_sum == latest_sha256`, not overridden by force release). -/
def skip2 (env : Env) : Prop :=
  latestMd5 env = "" ∧ latestSha256 env ≠ "" ∧
    artifactSha env = latestSha256 env ∧ forceRelease env.forceEnv = false

instance (env : Env) : Decidable (skip2 env) := by unfold skip2; infer_instance

/-- Steps 4–7 of `main` (download, mount, tag, sidecar, second skip check,
publish).  Returns the events, the value of `mount_dir` when control leaves
the block, and the result. -/
def mainSteps4to7 (env : Env)
    (download_link remote_md5 remote_size remote_last_modified : String) :
    List Event × String × Except String Nat :=
  let dl := download_with_retry env.downloadAttemptOk
  match dl.2 with
  | .error e => (dl.1, "", .error e)
  | .ok _ =>
    match env.mountOut with
    | none => (dl.1, "", .error "Failed to mount DMG.")
    | some mount_dir =>
      match get_tag_from_plist env.plist with
      | .error e => (dl.1, mount_dir, .error e)
      | .ok tag =>
        let sha256_sum := artifactSha env
        let shaText := write_sha_file tag download_link sha256_sum remote_md5
          remote_size remote_last_modified env.updateTime
        let ev := dl.1 ++ [.detach mount_dir, .writeSha shaText]
        if skip2 env then (ev, "", .ok 0)
        else
          let tag2 := if env.tagExists tag then tag ++ "_" ++ env.utcDate else tag
          (ev ++ [.publish tag2], "",
           if env.publishOk then .ok 0 else .error "gh release create failed")

/-- The body of `main`'s `try:` block.  Returns the events, the value of
`mount_dir` when control leaves the block, and the result. -/
def mainBody (env : Env) : List Event × String × Except String Nat :=
  match env.page with
  | none => ([], "", .error "website fetch failed")
  | some page =>
    match fetch_download_link page with
    | .error e => ([], "", .error e)
    | .ok download_link =>
      let hm := fetch_head_metadata env.headProbe
      let remote_md5 := dictGet hm.2 "x-cos-meta-md5" ""
      let remote_size := dictGet hm.2 "content-length" ""
      let remote_last_modified := dictGet hm.2 "last-modified" ""
      if skip1 env then (hm.1, "", .ok 0)
      else
        let r := mainSteps4to7 env download_link remote_md5 remote_size
          remote_last_modified
        (hm.1 ++ r.1, r.2.1, r.2.2)

/-- The trace and result of one invocation of `main`. -/
structure MainOutcome where
  events : List Event
  result : Except String Nat
  deriving Repr

namespace Script

/-- Embeds `main`, including the `finally:` cleanup: detach the volume if it is
still mounted, then remove the working tree; the body's outcome is passed
through untouched. -/
def main (env : Env) : MainOutcome :=
  let b := mainBody env
  ⟨b.1 ++ (if b.2.1 ≠ "" then [.detach b.2.1] else []) ++ [.rmtree], b.2.2⟩

/-- The `__main__` wrapper: `sys.exit(main())`, any exception giving exit 1. -/
def exitCode (env : Env) : Nat :=
  match (main env).result with
  | .ok n => n
  | .error _ => 1

end Script

/-! ## Helper lemmas about the link parser -/

theorem handle_starttag_stable (t : StartTag) (link : String) (h : link ≠ "") :
    handle_starttag link t = link := by
  rw [handle_starttag, if_pos (Or.inr h)]

theorem foldl_handle_stable (page : List StartTag) (link : String) (h : link ≠ "") :
    page.foldl handle_starttag link = link := by
  induction page with
  | nil => rfl
  | cons t ts ih => rw [List.foldl_cons, handle_starttag_stable t link h, ih]

theorem foldl_handle_empty (page : List StartTag) :
    page.foldl handle_starttag "" = (specFirstUsableLink page).getD "" := by
  induction page with
  | nil => rfl
  | cons t ts ih =>
    rw [List.foldl_cons, specFirstUsableLink, List.findSome?_cons]
    by_cases ha : t.tag = "a"
    · by_cases hc : "download-button" ∈ pySplitWs (dictGet (attrsDict t.attrs) "class" "")
      · by_cases hh : pyStrip (dictGet (attrsDict t.attrs) "href" "") = ""
        · have hstep : handle_starttag "" t = "" := by
            simp only [handle_starttag]
            rw [if_neg (by simp [ha]), if_pos hc, hh]
          have husable : usableHref t = none := by
            simp only [usableHref]
            rw [if_neg (by simp [hh])]
          rw [hstep, husable, ih, specFirstUsableLink]
        · have hstep : handle_starttag "" t =
              pyStrip (dictGet (attrsDict t.attrs) "href" "") := by
            simp only [handle_starttag]
            rw [if_neg (by simp [ha]), if_pos hc]
          have husable : usableHref t =
              some (pyStrip (dictGet (attrsDict t.attrs) "href" "")) := by
            simp only [usableHref]
            rw [if_pos ⟨ha, hc, hh⟩]
          rw [hstep, husable, foldl_handle_stable ts _ hh]
          rfl
      · have hstep : handle_starttag "" t = "" := by
          simp only [handle_starttag]
          rw [if_neg (by simp [ha]), if_neg hc]
        have husable : usableHref t = none := by
          simp only [usableHref]
          rw [if_neg (by simp [hc])]
        rw [hstep, husable, ih, specFirstUsableLink]
    · have hstep : handle_starttag "" t = "" := by
        rw [handle_starttag, if_pos (Or.inl ha)]
      have husable : usableHref t = none := by
        simp only [usableHref]
        rw [if_neg (by simp [ha])]
      rw [hstep, husable, ih, specFirstUsableLink]

theorem usableHref_ne_empty (t : StartTag) (h : String)
    (hu : usableHref t = some h) : h ≠ "" := by
  simp only [usableHref] at hu
  split at hu
  · rename_i hcond
    cases hu
    exact hcond.2.2
  · cases hu

/-- C10. `fetch_download_link` returns the stripped href of the first
anchor (in document order) whose `class` attribute contains the token
`download-button` and whose href is non-empty after stripping — matching
anchors with an empty stripped href are passed over, anchors after the first
successful match cannot alter the result, and if no usable anchor exists the
function raises `RuntimeError`. -/
theorem c10_link_extraction (page : List StartTag) :
    fetch_download_link page =
      match specFirstUsableLink page with
      | some h => .ok h
      | none => .error "Download link not found on website." := by
  rw [fetch_download_link]
  simp only [foldl_handle_empty]
  cases hfs : specFirstUsableLink page with
  | none => simp
  | some h =>
    obtain ⟨t, _, ht⟩ := List.exists_of_findSome?_eq_some hfs
    have hne : h ≠ "" := usableHref_ne_empty t h ht
    simp [Option.getD, hne]

/-! ## C1: tag derivation -/

/-- C1 counterexample. The claim says a non-empty unified version is
returned verbatim *regardless of the other fields*, but with an empty
`CFBundleShortVersionString` the script raises even though
`WeChatBundleVersion` is `"1.2.3"`. -/
theorem c1_counterexample :
    get_tag_from_plist (some [("CFBundleShortVersionString", ""),
        ("CFBundleVersion", "456"), ("WeChatBundleVersion", "1.2.3")])
      = .error "CFBundleShortVersionString not found." ∧
    get_tag_from_plist (some [("CFBundleShortVersionString", ""),
        ("CFBundleVersion", "456"), ("WeChatBundleVersion", "1.2.3")])
      ≠ .ok "1.2.3" := by
  refine ⟨rfl, ?_⟩
  intro h
  rw [show get_tag_from_plist (some [("CFBundleShortVersionString", ""),
      ("CFBundleVersion", "456"), ("WeChatBundleVersion", "1.2.3")])
      = .error "CFBundleShortVersionString not found." from rfl] at h
  exact Except.noConfusion h

/-- C1 (amended). Tag derivation on the stripped plist fields: the script
first requires `CFBundleShortVersionString` and `CFBundleVersion` to be
non-empty (raising `MetadataError` otherwise, even when the unified
`WeChatBundleVersion` is non-empty); only then does a non-empty unified
version win verbatim, the composed `{short}+build.{build}` being the
fallback. -/
theorem c1_tag_derivation (data : List (String × String)) (s b v : String)
    (hs : pyStrip (dictGet data "CFBundleShortVersionString" "") = s)
    (hb : pyStrip (dictGet data "CFBundleVersion" "") = b)
    (hv : pyStrip (dictGet data "WeChatBundleVersion" "") = v) :
    (s = "" →
      get_tag_from_plist (some data) = .error "CFBundleShortVersionString not found.") ∧
    (s ≠ "" → b = "" →
      get_tag_from_plist (some data) = .error "CFBundleVersion not found.") ∧
    (s ≠ "" → b ≠ "" → v ≠ "" →
      get_tag_from_plist (some data) = .ok v) ∧
    (s ≠ "" → b ≠ "" → v = "" →
      get_tag_from_plist (some data) = .ok (s ++ "+build." ++ b)) := by
  simp only [get_tag_from_plist, hs, hb, hv]
  refine ⟨fun h1 => ?_, fun h1 h2 => ?_, fun h1 h2 h3 => ?_, fun h1 h2 h3 => ?_⟩
  · rw [if_pos h1]
  · rw [if_neg h1, if_pos h2]
  · rw [if_neg h1, if_neg h2, if_pos h3]
  · rw [if_neg h1, if_neg h2, if_neg (by simp [h3])]

/-- Witness for `c1_tag_derivation` at a concrete plist. -/
theorem c1_tag_derivation_witness :
    pyStrip (dictGet [("CFBundleShortVersionString", " 3.8.0 "),
        ("CFBundleVersion", "27289"), ("WeChatBundleVersion", "3.8.1")]
        "CFBundleShortVersionString" "") = "3.8.0" ∧
    (("3.8.0" : String) ≠ "" → ("27289" : String) ≠ "" → ("3.8.1" : String) ≠ "" →
      get_tag_from_plist (some [("CFBundleShortVersionString", " 3.8.0 "),
        ("CFBundleVersion", "27289"), ("WeChatBundleVersion", "3.8.1")])
        = .ok "3.8.1") :=
  ⟨by decide,
   (c1_tag_derivation [("CFBundleShortVersionString", " 3.8.0 "),
      ("CFBundleVersion", "27289"), ("WeChatBundleVersion", "3.8.1")]
      "3.8.0" "27289" "3.8.1" (by decide) (by decide) (by decide)).2.2.1⟩

/-! ## C7: checksum determinism and chunk invariance -/

/-- C7. `compute_sha256` is a pure function of the file content (so
repeated invocations return the same digest), and streaming the content in
chunks of any positive size yields the digest of hashing the whole content
at once — in particular any two chunk sizes agree. -/
theorem c7_checksum_chunk_invariance (content : List Nat) (c1 c2 : Nat)
    (h1 : 0 < c1) (h2 : 0 < c2) :
    compute_sha256 c1 content = compute_sha256 c2 content ∧
    compute_sha256 c1 content = sha256hex content := by
  have e : ∀ c, 0 < c → compute_sha256 c content = sha256hex content := by
    intro c hc
    rw [compute_sha256, foldl_append_eq_flatten, List.nil_append,
        readChunks_flatten c content hc]
  exact ⟨(e c1 h1).trans (e c2 h2).symm, e c1 h1⟩

/-- Witness for `c7_checksum_chunk_invariance` at a concrete file. -/
theorem c7_checksum_chunk_invariance_witness :
    0 < 7 ∧ 0 < 1024 * 1024 ∧
    (compute_sha256 7 [1, 2, 3] = compute_sha256 (1024 * 1024) [1, 2, 3] ∧
     compute_sha256 7 [1, 2, 3] = sha256hex [1, 2, 3]) :=
  ⟨by decide, by decide,
   c7_checksum_chunk_invariance [1, 2, 3] 7 (1024 * 1024) (by decide) (by decide)⟩

/-! ## C8: the HEAD-metadata probe never propagates failure -/

theorem fetch_head_metadata_eq (probe : Nat → Option (List (String × String))) :
    fetch_head_metadata probe =
      match probe 1 with
      | some hs => ([.headAttempt 1], normHeaders hs)
      | none =>
        match probe 2 with
        | some hs => ([.headAttempt 1, .sleep 10, .headAttempt 2], normHeaders hs)
        | none => ([.headAttempt 1, .sleep 10, .headAttempt 2], []) := by
  rw [fetch_head_metadata]
  rcases h1 : probe 1 with _ | hs
  · rcases h2 : probe 2 with _ | hs2 <;> simp [head_go, h1, h2]
  · simp [head_go, h1]

/-- C8. `fetch_head_metadata` makes at most 2 HEAD attempts, every
inter-attempt delay is the fixed 10 seconds, and when both attempts fail it
returns the empty metadata dict — by construction (its return type carries
no exception) it never propagates a probe failure to the caller. -/
theorem c8_metadata_probe_downgrade (probe : Nat → Option (List (String × String))) :
    (fetch_head_metadata probe).1.countP Event.isHeadAttempt ≤ 2 ∧
    (∀ s, Event.sleep s ∈ (fetch_head_metadata probe).1 → s = 10) ∧
    (probe 1 = none → probe 2 = none →
      fetch_head_metadata probe = ([.headAttempt 1, .sleep 10, .headAttempt 2], [])) := by
  rcases h1 : probe 1 with _ | hs
  · rcases h2 : probe 2 with _ | hs2
    · have e : fetch_head_metadata probe
          = ([.headAttempt 1, .sleep 10, .headAttempt 2], []) := by
        rw [fetch_head_metadata_eq, h1, h2]
      rw [e]
      refine ⟨?_, ?_, fun _ _ => rfl⟩
      · decide
      · intro s hm
        simp at hm
        exact hm
    · have e : fetch_head_metadata probe
          = ([.headAttempt 1, .sleep 10, .headAttempt 2], normHeaders hs2) := by
        rw [fetch_head_metadata_eq, h1, h2]
      rw [e]
      refine ⟨?_, ?_, fun _ hc => Option.noConfusion hc⟩
      · show List.countP Event.isHeadAttempt
          [.headAttempt 1, .sleep 10, .headAttempt 2] ≤ 2
        decide
      · intro s hm
        simp at hm
        exact hm
  · have e : fetch_head_metadata probe = ([.headAttempt 1], normHeaders hs) := by
      rw [fetch_head_metadata_eq, h1]
    rw [e]
    refine ⟨?_, ?_, fun hc _ => Option.noConfusion hc⟩
    · show List.countP Event.isHeadAttempt [.headAttempt 1] ≤ 2
      decide
    · intro s hm
      simp at hm

/-- Witness for `c8_metadata_probe_downgrade` at a probe that always fails. -/
theorem c8_metadata_probe_downgrade_witness :
    (fetch_head_metadata (fun _ => none)).1.countP Event.isHeadAttempt ≤ 2 ∧
    (∀ s, Event.sleep s ∈ (fetch_head_metadata (fun _ => none)).1 → s = 10) ∧
    ((fun _ => none : Nat → Option (List (String × String))) 1 = none →
     (fun _ => none : Nat → Option (List (String × String))) 2 = none →
      fetch_head_metadata (fun _ => none)
        = ([.headAttempt 1, .sleep 10, .headAttempt 2], [])) :=
  c8_metadata_probe_downgrade (fun _ => none)

/-! ## Helper lemmas about the workflow traces -/

theorem fetch_head_events (probe : Nat → Option (List (String × String))) :
    (fetch_head_metadata probe).1 = [.headAttempt 1] ∨
    (fetch_head_metadata probe).1 = [.headAttempt 1, .sleep 10, .headAttempt 2] := by
  rw [fetch_head_metadata_eq]
  rcases probe 1 with _ | hs
  · rcases probe 2 with _ | hs2 <;> simp
  · simp

theorem fetch_head_no_download (probe : Nat → Option (List (String × String))) :
    (fetch_head_metadata probe).1.countP Event.isDownload = 0 := by
  rcases fetch_head_events probe with h | h <;> rw [h] <;> decide

theorem fetch_head_no_rmtree (probe : Nat → Option (List (String × String))) :
    (fetch_head_metadata probe).1.countP Event.isRmtree = 0 := by
  rcases fetch_head_events probe with h | h <;> rw [h] <;> decide

theorem fetch_head_not_publish (probe : Nat → Option (List (String × String)))
    (x : String) : Event.publish x ∉ (fetch_head_metadata probe).1 := by
  rcases fetch_head_events probe with h | h <;> rw [h] <;> simp

theorem fetch_head_no_publish (probe : Nat → Option (List (String × String))) :
    (fetch_head_metadata probe).1.countP Event.isPublish = 0 := by
  rcases fetch_head_events probe with h | h <;> rw [h] <;> decide

theorem download_with_retry_eq (ok : Nat → Bool) :
    download_with_retry ok =
      if ok 1 then ([.downloadAttempt 1], .ok ())
      else if ok 2 then ([.downloadAttempt 1, .sleep 10, .downloadAttempt 2], .ok ())
      else ([.downloadAttempt 1, .sleep 10, .downloadAttempt 2],
            .error "Download failed.") := by
  rw [download_with_retry]
  rcases h1 : ok 1 <;> rcases h2 : ok 2 <;> simp [retry_go, h1, h2]

theorem download_events (ok : Nat → Bool) :
    (download_with_retry ok).1 = [.downloadAttempt 1] ∨
    (download_with_retry ok).1 = [.downloadAttempt 1, .sleep 10, .downloadAttempt 2] := by
  rw [download_with_retry_eq]
  rcases h1 : ok 1 <;> rcases h2 : ok 2 <;> simp

theorem download_once (ok : Nat → Bool) (h : ok 1 = true) :
    download_with_retry ok = ([.downloadAttempt 1], .ok ()) := by
  rw [download_with_retry_eq, if_pos h]

theorem download_pos (ok : Nat → Bool) :
    0 < (download_with_retry ok).1.countP Event.isDownload := by
  rcases download_events ok with h | h <;> rw [h] <;> decide

theorem download_no_rmtree (ok : Nat → Bool) :
    (download_with_retry ok).1.countP Event.isRmtree = 0 := by
  rcases download_events ok with h | h <;> rw [h] <;> decide

theorem download_not_publish (ok : Nat → Bool) (x : String) :
    Event.publish x ∉ (download_with_retry ok).1 := by
  rcases download_events ok with h | h <;> rw [h] <;> simp

theorem download_no_publish (ok : Nat → Bool) :
    (download_with_retry ok).1.countP Event.isPublish = 0 := by
  rcases download_events ok with h | h <;> rw [h] <;> decide

/-- Applies `mainSteps4to7` at the header-derived arguments `main` passes it. -/
def mainStepsOf (env : Env) (download_link : String) :
    List Event × String × Except String Nat :=
  mainSteps4to7 env download_link
    (dictGet (fetch_head_metadata env.headProbe).2 "x-cos-meta-md5" "")
    (dictGet (fetch_head_metadata env.headProbe).2 "content-length" "")
    (dictGet (fetch_head_metadata env.headProbe).2 "last-modified" "")

theorem mainBody_skip1 (env : Env) (pg : List StartTag) (l : String)
    (hpage : env.page = some pg) (hlink : fetch_download_link pg = .ok l)
    (hs : skip1 env) :
    mainBody env = ((fetch_head_metadata env.headProbe).1, "", .ok 0) := by
  simp only [mainBody, hpage, hlink, if_pos hs]

theorem mainBody_noskip (env : Env) (pg : List StartTag) (l : String)
    (hpage : env.page = some pg) (hlink : fetch_download_link pg = .ok l)
    (hns : ¬ skip1 env) :
    mainBody env = ((fetch_head_metadata env.headProbe).1 ++ (mainStepsOf env l).1,
      (mainStepsOf env l).2.1, (mainStepsOf env l).2.2) := by
  simp only [mainBody, hpage, hlink, if_neg hns, mainStepsOf]

theorem mainSteps_tagfail (env : Env) (l r1 r2 r3 d e : String)
    (hdl : (download_with_retry env.downloadAttemptOk).2 = .ok ())
    (hmount : env.mountOut = some d)
    (hplist : get_tag_from_plist env.plist = .error e) :
    mainSteps4to7 env l r1 r2 r3 =
      ((download_with_retry env.downloadAttemptOk).1, d, .error e) := by
  simp only [mainSteps4to7, hdl, hmount, hplist]

theorem mainSteps_skip2 (env : Env) (l r1 r2 r3 d t : String)
    (hdl : (download_with_retry env.downloadAttemptOk).2 = .ok ())
    (hmount : env.mountOut = some d)
    (htag : get_tag_from_plist env.plist = .ok t)
    (hs2 : skip2 env) :
    mainSteps4to7 env l r1 r2 r3 =
      ((download_with_retry env.downloadAttemptOk).1 ++
        [.detach d, .writeSha (write_sha_file t l (artifactSha env) r1 r2 r3
          env.updateTime)], "", .ok 0) := by
  simp only [mainSteps4to7, hdl, hmount, htag, if_pos hs2]

theorem mainSteps_publish (env : Env) (l r1 r2 r3 d t : String)
    (hdl : (download_with_retry env.downloadAttemptOk).2 = .ok ())
    (hmount : env.mountOut = some d)
    (htag : get_tag_from_plist env.plist = .ok t)
    (hns2 : ¬ skip2 env) :
    mainSteps4to7 env l r1 r2 r3 =
      ((download_with_retry env.downloadAttemptOk).1 ++
        [.detach d, .writeSha (write_sha_file t l (artifactSha env) r1 r2 r3
          env.updateTime)] ++
        [.publish (if env.tagExists t then t ++ "_" ++ env.utcDate else t)], "",
       if env.publishOk then .ok 0 else .error "gh release create failed") := by
  simp only [mainSteps4to7, hdl, hmount, htag, if_neg hns2]

theorem mainSteps_no_rmtree (env : Env) (l r1 r2 r3 : String) :
    (mainSteps4to7 env l r1 r2 r3).1.countP Event.isRmtree = 0 := by
  simp only [mainSteps4to7]
  split
  · simpa using download_no_rmtree env.downloadAttemptOk
  · split
    · simpa using download_no_rmtree env.downloadAttemptOk
    · split
      · simpa using download_no_rmtree env.downloadAttemptOk
      · split
        · simp [List.countP_append, List.countP_cons, Event.isRmtree,
            download_no_rmtree env.downloadAttemptOk]
        · simp [List.countP_append, List.countP_cons, Event.isRmtree,
            download_no_rmtree env.downloadAttemptOk]

theorem mainSteps_download_pos (env : Env) (l r1 r2 r3 : String) :
    0 < (mainSteps4to7 env l r1 r2 r3).1.countP Event.isDownload := by
  have hd := download_pos env.downloadAttemptOk
  simp only [mainSteps4to7]
  split
  · simpa using hd
  · split
    · simpa using hd
    · split
      · simpa using hd
      · split
        · simp only [List.countP_append]
          omega
        · simp only [List.countP_append]
          omega

theorem mainBody_no_rmtree (env : Env) :
    (mainBody env).1.countP Event.isRmtree = 0 := by
  simp only [mainBody]
  split
  · rfl
  · split
    · rfl
    · split
      · simpa using fetch_head_no_rmtree env.headProbe
      · simp [List.countP_append, fetch_head_no_rmtree env.headProbe,
          mainSteps_no_rmtree]

theorem main_events (env : Env) :
    (Script.main env).events = (mainBody env).1 ++
      (if (mainBody env).2.1 ≠ "" then [.detach (mainBody env).2.1] else []) ++
      [.rmtree] := rfl

theorem main_result (env : Env) :
    (Script.main env).result = (mainBody env).2.2 := rfl

theorem exitCode_of_ok (env : Env) (n : Nat)
    (h : (mainBody env).2.2 = .ok n) : Script.exitCode env = n := by
  rw [Script.exitCode, main_result, h]

theorem tag_suffix_ne (t d : String) : t ++ "_" ++ d ≠ t := by
  intro h
  have hl := congrArg String.length h
  rw [String.length_append, String.length_append] at hl
  have h1 : String.length "_" = 1 := rfl
  rw [h1] at hl
  omega

/-! ## C2: pre-download skip on matching MD5 -/

/-- C2. When the remote MD5 and the latest release's MD5 are both
non-empty and equal, a run (that resolved its download link) exits 0 without
a single `wget` invocation unless the force-release override is set, in
which case the download proceeds despite the match. -/
theorem c2_pre_download_skip (env : Env) (pg : List StartTag) (l : String)
    (hpage : env.page = some pg) (hlink : fetch_download_link pg = .ok l)
    (hr : remoteMd5 env ≠ "") (hl : latestMd5 env ≠ "")
    (heq : remoteMd5 env = latestMd5 env) :
    (forceRelease env.forceEnv = false →
      Script.exitCode env = 0 ∧
      (Script.main env).events.countP Event.isDownload = 0) ∧
    (forceRelease env.forceEnv = true →
      0 < (Script.main env).events.countP Event.isDownload) := by
  constructor
  · intro hf
    have hs : skip1 env := ⟨hr, hl, heq, hf⟩
    have hb := mainBody_skip1 env pg l hpage hlink hs
    refine ⟨exitCode_of_ok env 0 (by rw [hb]), ?_⟩
    rw [main_events, hb]
    simp [List.countP_append, List.countP_cons, Event.isDownload,
      fetch_head_no_download env.headProbe]
  · intro hf
    have hns : ¬ skip1 env := by
      intro h
      rw [h.2.2.2] at hf
      exact Bool.noConfusion hf
    have hb := mainBody_noskip env pg l hpage hlink hns
    rw [main_events, hb]
    have hp : 0 < (mainStepsOf env l).1.countP Event.isDownload :=
      mainSteps_download_pos env l _ _ _
    simp only [List.countP_append]
    omega

/-- Witness environment for C2: matching MD5s, no force override. -/
def c2Env : Env :=
  { forceEnv := ""
    page := some [⟨"a", [("class", some "download-button"),
      ("href", some "http://dl/WeChatMac.dmg")]⟩]
    headProbe := fun n => if n = 1 then some [("x-cos-meta-md5", "abc")] else none
    ghLatest := some "Md5: abc"
    downloadAttemptOk := fun _ => true
    mountOut := some "/Volumes/WeChat"
    plist := some [("CFBundleShortVersionString", "4.1.0"), ("CFBundleVersion", "100")]
    dmgBytes := []
    tagExists := fun _ => false
    utcDate := "20261012"
    updateTime := "2026-10-12 03:04:05"
    publishOk := true }

/-- Witness for `c2_pre_download_skip` at `c2Env`. -/
theorem c2_pre_download_skip_witness :
    (forceRelease c2Env.forceEnv = false →
      Script.exitCode c2Env = 0 ∧
      (Script.main c2Env).events.countP Event.isDownload = 0) ∧
    (forceRelease c2Env.forceEnv = true →
      0 < (Script.main c2Env).events.countP Event.isDownload) :=
  c2_pre_download_skip c2Env
    [⟨"a", [("class", some "download-button"), ("href", some "http://dl/WeChatMac.dmg")]⟩]
    "http://dl/WeChatMac.dmg" rfl rfl (by decide) (by decide) (by decide)

/-! ## C3: post-download skip on matching SHA-256 -/

/-- C3. When the latest release records no MD5 but does record a sha256
equal to the artifact's freshly computed sha256 and force release is unset, a
run that downloaded, mounted and tagged the artifact exits 0 with no
`gh release create` invocation, even though `wget` already ran. -/
theorem c3_post_download_skip (env : Env) (pg : List StartTag) (l d t : String)
    (hpage : env.page = some pg) (hlink : fetch_download_link pg = .ok l)
    (hdl : (download_with_retry env.downloadAttemptOk).2 = .ok ())
    (hmount : env.mountOut = some d)
    (htag : get_tag_from_plist env.plist = .ok t)
    (hlm : latestMd5 env = "") (hls : latestSha256 env ≠ "")
    (hsha : artifactSha env = latestSha256 env)
    (hf : forceRelease env.forceEnv = false) :
    Script.exitCode env = 0 ∧
    (Script.main env).events.countP Event.isPublish = 0 ∧
    0 < (Script.main env).events.countP Event.isDownload := by
  have hns1 : ¬ skip1 env := fun h => h.2.1 hlm
  have hs2 : skip2 env := ⟨hlm, hls, hsha, hf⟩
  have hb := mainBody_noskip env pg l hpage hlink hns1
  have hsteps := mainSteps_skip2 env l
    (dictGet (fetch_head_metadata env.headProbe).2 "x-cos-meta-md5" "")
    (dictGet (fetch_head_metadata env.headProbe).2 "content-length" "")
    (dictGet (fetch_head_metadata env.headProbe).2 "last-modified" "")
    d t hdl hmount htag hs2
  have hsteps' : mainStepsOf env l = _ := hsteps
  refine ⟨exitCode_of_ok env 0 (by rw [hb, hsteps']), ?_, ?_⟩
  · rw [main_events, hb, hsteps']
    simp [List.countP_append, List.countP_cons, Event.isPublish,
      fetch_head_no_publish env.headProbe, download_no_publish env.downloadAttemptOk]
  · rw [main_events, hb, hsteps']
    have hp := download_pos env.downloadAttemptOk
    simp only [List.countP_append]
    omega

/-- Witness environment for C3: no recorded MD5, matching sha256. -/
def c3Env : Env :=
  { c2Env with
    headProbe := fun _ => none
    ghLatest := some ("Sha256: " ++ compute_sha256 (1024 * 1024) []) }

/-- Witness for `c3_post_download_skip` at `c3Env`. -/
theorem c3_post_download_skip_witness :
    Script.exitCode c3Env = 0 ∧
    (Script.main c3Env).events.countP Event.isPublish = 0 ∧
    0 < (Script.main c3Env).events.countP Event.isDownload :=
  c3_post_download_skip c3Env
    [⟨"a", [("class", some "download-button"), ("href", some "http://dl/WeChatMac.dmg")]⟩]
    "http://dl/WeChatMac.dmg" "/Volumes/WeChat" "4.1.0+build.100"
    rfl rfl rfl rfl rfl (by decide) (by decide) (by decide) (by decide)

/-! ## C4: end-to-end skip scenario -/

/-- Environment for the C4 counterexample: the remote MD5 header is absent,
the latest release's recorded sha256 equals the artifact's sha256, force
release is unset — but the latest release also records a (stale) MD5, so the
script takes the publish path instead of the sha256 skip. -/
def c4Env : Env :=
  { c2Env with
    headProbe := fun _ => none
    ghLatest := some ("Md5: mm\nSha256: " ++ compute_sha256 (1024 * 1024) []) }

/-- C4 counterexample. All conditions of the claim hold at `c4Env`
(remote MD5 absent, recorded sha256 equal to the computed one, no force
override), yet the run performs a `gh release create` call, refuting "no
publish call is made". -/
theorem c4_counterexample :
    remoteMd5 c4Env = "" ∧
    latestSha256 c4Env = artifactSha c4Env ∧
    forceRelease c4Env.forceEnv = false ∧
    0 < (Script.main c4Env).events.countP Event.isPublish := by decide

/-- C4 (amended). The end-to-end skip additionally requires the latest
release to have *no recorded MD5* (the script only applies the sha256
fallback check in that case): then the process exits 0, makes no publish
call, and invokes `wget` exactly once (on a run whose first download attempt
succeeds). -/
theorem c4_end_to_end_skip (env : Env) (pg : List StartTag) (l d t : String)
    (hpage : env.page = some pg) (hlink : fetch_download_link pg = .ok l)
    (hremote : remoteMd5 env = "")
    (h1 : env.downloadAttemptOk 1 = true)
    (hmount : env.mountOut = some d)
    (htag : get_tag_from_plist env.plist = .ok t)
    (hlm : latestMd5 env = "") (hls : latestSha256 env ≠ "")
    (hsha : artifactSha env = latestSha256 env)
    (hf : forceRelease env.forceEnv = false) :
    Script.exitCode env = 0 ∧
    (Script.main env).events.countP Event.isPublish = 0 ∧
    (Script.main env).events.countP Event.isDownload = 1 := by
  have hns1 : ¬ skip1 env := fun h => h.1 hremote
  have hs2 : skip2 env := ⟨hlm, hls, hsha, hf⟩
  have hdl : (download_with_retry env.downloadAttemptOk).2 = .ok () := by
    rw [download_once env.downloadAttemptOk h1]
  have hb := mainBody_noskip env pg l hpage hlink hns1
  have hsteps := mainSteps_skip2 env l
    (dictGet (fetch_head_metadata env.headProbe).2 "x-cos-meta-md5" "")
    (dictGet (fetch_head_metadata env.headProbe).2 "content-length" "")
    (dictGet (fetch_head_metadata env.headProbe).2 "last-modified" "")
    d t hdl hmount htag hs2
  have hsteps' : mainStepsOf env l = _ := hsteps
  refine ⟨exitCode_of_ok env 0 (by rw [hb, hsteps']), ?_, ?_⟩
  · rw [main_events, hb, hsteps']
    simp [List.countP_append, List.countP_cons, Event.isPublish,
      fetch_head_no_publish env.headProbe, download_no_publish env.downloadAttemptOk]
  · rw [main_events, hb, hsteps', download_once env.downloadAttemptOk h1]
    simp [List.countP_append, List.countP_cons, Event.isDownload,
      fetch_head_no_download env.headProbe]

/-- Witness environment for the amended C4: like `c4Env` but with no
recorded MD5 on the latest release. -/
def c4EnvOk : Env :=
  { c2Env with
    headProbe := fun _ => none
    ghLatest := some ("Sha256: " ++ compute_sha256 (1024 * 1024) []) }

/-- Witness for `c4_end_to_end_skip` at `c4EnvOk`. -/
theorem c4_end_to_end_skip_witness :
    Script.exitCode c4EnvOk = 0 ∧
    (Script.main c4EnvOk).events.countP Event.isPublish = 0 ∧
    (Script.main c4EnvOk).events.countP Event.isDownload = 1 :=
  c4_end_to_end_skip c4EnvOk
    [⟨"a", [("class", some "download-button"), ("href", some "http://dl/WeChatMac.dmg")]⟩]
    "http://dl/WeChatMac.dmg" "/Volumes/WeChat" "4.1.0+build.100"
    rfl rfl (by decide) rfl rfl rfl (by decide) (by decide) (by decide) (by decide)

/-! ## C5: tag collision handling -/

/-- C5. On a run that reaches publication with derived tag `t`: exactly
one `gh release create` happens; if the registry reports `t` as existing the
published tag is `t` with the UTC date suffix `t_YYYYMMDD` (the `strftime`
output being modelled by `env.utcDate`) and `t` itself is never published —
so the existing release is not overwritten — while a fresh `t` is published
unchanged. -/
theorem c5_tag_collision (env : Env) (pg : List StartTag) (l d t : String)
    (hpage : env.page = some pg) (hlink : fetch_download_link pg = .ok l)
    (hdl : (download_with_retry env.downloadAttemptOk).2 = .ok ())
    (hmount : env.mountOut = some d)
    (htag : get_tag_from_plist env.plist = .ok t)
    (hns1 : ¬ skip1 env) (hns2 : ¬ skip2 env) :
    (Script.main env).events.countP Event.isPublish = 1 ∧
    (env.tagExists t = true →
      Event.publish (t ++ "_" ++ env.utcDate) ∈ (Script.main env).events ∧
      Event.publish t ∉ (Script.main env).events) ∧
    (env.tagExists t = false →
      Event.publish t ∈ (Script.main env).events) := by
  have hb := mainBody_noskip env pg l hpage hlink hns1
  have hsteps := mainSteps_publish env l
    (dictGet (fetch_head_metadata env.headProbe).2 "x-cos-meta-md5" "")
    (dictGet (fetch_head_metadata env.headProbe).2 "content-length" "")
    (dictGet (fetch_head_metadata env.headProbe).2 "last-modified" "")
    d t hdl hmount htag hns2
  have hsteps' : mainStepsOf env l = _ := hsteps
  refine ⟨?_, ?_, ?_⟩
  · rw [main_events, hb, hsteps']
    simp [List.countP_append, List.countP_cons, Event.isPublish,
      fetch_head_no_publish env.headProbe, download_no_publish env.downloadAttemptOk]
  · intro htrue
    constructor
    · rw [main_events, hb, hsteps']
      simp [htrue, List.mem_append]
    · intro hmem
      rw [main_events, hb, hsteps'] at hmem
      simp [htrue, List.mem_append] at hmem
      rcases hmem with h | h | h
      · exact fetch_head_not_publish env.headProbe t h
      · exact download_not_publish env.downloadAttemptOk t h
      · exact tag_suffix_ne t env.utcDate h.symm
  · intro hfalse
    rw [main_events, hb, hsteps']
    simp [hfalse, List.mem_append]

/-- Witness environment for C5: the derived tag already exists upstream. -/
def c5Env : Env :=
  { c2Env with
    ghLatest := none
    tagExists := fun s => s == "4.1.0+build.100" }

/-- Witness for `c5_tag_collision` at `c5Env`. -/
theorem c5_tag_collision_witness :
    (Script.main c5Env).events.countP Event.isPublish = 1 ∧
    (c5Env.tagExists "4.1.0+build.100" = true →
      Event.publish ("4.1.0+build.100" ++ "_" ++ c5Env.utcDate)
        ∈ (Script.main c5Env).events ∧
      Event.publish "4.1.0+build.100" ∉ (Script.main c5Env).events) ∧
    (c5Env.tagExists "4.1.0+build.100" = false →
      Event.publish "4.1.0+build.100" ∈ (Script.main c5Env).events) :=
  c5_tag_collision c5Env
    [⟨"a", [("class", some "download-button"), ("href", some "http://dl/WeChatMac.dmg")]⟩]
    "http://dl/WeChatMac.dmg" "/Volumes/WeChat" "4.1.0+build.100"
    rfl rfl rfl rfl rfl (by decide) (by decide)

/-! ## C9: guaranteed cleanup -/

/-- C9. On every run: the working tree is removed exactly once and as
the very last action; the outcome of the body (success or the original
error) is passed through the cleanup untouched; and in the specific scenario
where the image was mounted (at a non-empty mount point) and
`get_tag_from_plist` then fails, the cleanup still detaches the volume
immediately before removing the working tree while the original error is
reported. -/
theorem c9_guaranteed_cleanup (env : Env) :
    (Script.main env).events.countP Event.isRmtree = 1 ∧
    (Script.main env).events.getLast? = some .rmtree ∧
    (Script.main env).result = (mainBody env).2.2 ∧
    (∀ pg l d, env.page = some pg → fetch_download_link pg = .ok l →
      ¬ skip1 env → (download_with_retry env.downloadAttemptOk).2 = .ok () →
      env.mountOut = some d → env.plist = none → d ≠ "" →
      (∃ evs, (Script.main env).events = evs ++ [.detach d, .rmtree]) ∧
      (Script.main env).result = .error "Info.plist not found in mounted volume.") := by
  refine ⟨?_, ?_, rfl, ?_⟩
  · rw [main_events]
    have hde : (if (mainBody env).2.1 ≠ "" then [Event.detach (mainBody env).2.1]
        else []).countP Event.isRmtree = 0 := by
      split <;> rfl
    simp only [List.countP_append, mainBody_no_rmtree env, hde]
    rfl
  · rw [main_events]
    exact List.getLast?_concat _
  · intro pg l d hpage hlink hns hdl hmount hplist hd
    have hb := mainBody_noskip env pg l hpage hlink hns
    have htagerr : get_tag_from_plist env.plist
        = .error "Info.plist not found in mounted volume." := by
      rw [hplist]
      rfl
    have hsteps := mainSteps_tagfail env l
      (dictGet (fetch_head_metadata env.headProbe).2 "x-cos-meta-md5" "")
      (dictGet (fetch_head_metadata env.headProbe).2 "content-length" "")
      (dictGet (fetch_head_metadata env.headProbe).2 "last-modified" "")
      d "Info.plist not found in mounted volume." hdl hmount htagerr
    have hsteps' : mainStepsOf env l = _ := hsteps
    constructor
    · refine ⟨(fetch_head_metadata env.headProbe).1 ++
        (download_with_retry env.downloadAttemptOk).1, ?_⟩
      rw [main_events, hb, hsteps']
      simp [hd, List.append_assoc]
    · rw [main_result, hb, hsteps']

/-- Witness environment for C9: the image mounts but `Info.plist` is
missing. -/
def c9Env : Env := { c2Env with ghLatest := none, plist := none }

/-- Witness for `c9_guaranteed_cleanup` at `c9Env`. -/
theorem c9_guaranteed_cleanup_witness :
    (Script.main c9Env).events.countP Event.isRmtree = 1 ∧
    (Script.main c9Env).events.getLast? = some .rmtree ∧
    (Script.main c9Env).result = (mainBody c9Env).2.2 ∧
    (∀ pg l d, c9Env.page = some pg → fetch_download_link pg = .ok l →
      ¬ skip1 c9Env → (download_with_retry c9Env.downloadAttemptOk).2 = .ok () →
      c9Env.mountOut = some d → c9Env.plist = none → d ≠ "" →
      (∃ evs, (Script.main c9Env).events = evs ++ [.detach d, .rmtree]) ∧
      (Script.main c9Env).result
        = .error "Info.plist not found in mounted volume.") :=
  c9_guaranteed_cleanup c9Env

/-! ## C6: sidecar round-trip -/

set_option maxHeartbeats 4000000 in
theorem splitlinesAux_line (l : List Char) (hl : ∀ c ∈ l, isLineTerm c = false)
    (rest acc : List Char) :
    splitlinesAux (l ++ '\n' :: rest) acc
      = (acc.reverse ++ l) :: splitlinesAux rest [] := by
  induction l generalizing acc with
  | nil =>
    rw [List.nil_append]
    rw [splitlinesAux.eq_3 acc '\n' rest (fun r h1 _ => absurd h1 (by decide))]
    rw [if_pos (by decide)]
    simp
  | cons c cs ih =>
    have hc : isLineTerm c = false := hl c (List.mem_cons_self c cs)
    have hcr : c ≠ '\r' := by
      intro h
      rw [h] at hc
      exact absurd hc (by decide)
    rw [List.cons_append]
    rw [splitlinesAux.eq_3 acc c (cs ++ '\n' :: rest) (fun r h1 _ => hcr h1)]
    rw [if_neg (by simp [hc])]
    rw [ih (fun x hx => hl x (List.mem_cons_of_mem c hx)) (c :: acc)]
    simp

theorem pySplitlines_join (lines : List String)
    (h : ∀ s ∈ lines, ∀ c ∈ s.data, isLineTerm c = false) :
    lines ≠ [] → pySplitlines (pyJoin "\n" lines ++ "\n") = lines := by
  induction lines with
  | nil => intro hne; cases hne rfl
  | cons l ls ih =>
    intro _
    cases ls with
    | nil =>
      rw [pyJoin, pySplitlines]
      have hd : (l ++ "\n").data = l.data ++ '\n' :: [] := by
        rw [String.data_append]
      rw [hd, splitlinesAux_line l.data (h l (List.mem_cons_self l [])) [] []]
      rfl
    | cons l2 ls2 =>
      rw [pyJoin, pySplitlines]
      have hd : ((l ++ "\n" ++ pyJoin "\n" (l2 :: ls2)) ++ "\n").data
          = l.data ++ '\n' :: (pyJoin "\n" (l2 :: ls2) ++ "\n").data := by
        simp [String.data_append]
      rw [hd, splitlinesAux_line l.data (h l (List.mem_cons_self l (l2 :: ls2)))
        ((pyJoin "\n" (l2 :: ls2) ++ "\n").data) []]
      have hih := ih (fun s hs c hc => h s (List.mem_cons_of_mem l hs) c hc)
        (List.cons_ne_nil l2 ls2)
      rw [pySplitlines] at hih
      simp only [List.map_cons, List.reverse_nil, List.nil_append, hih]
      simp

theorem splitFirstAux_no_colon (k : List Char) (hk : ':' ∉ k)
    (rest acc : List Char) :
    splitFirstAux (k ++ ':' :: rest) acc = (acc.reverse ++ k, rest) := by
  induction k generalizing acc with
  | nil =>
    rw [List.nil_append, splitFirstAux, if_pos rfl]
    simp
  | cons c cs ih =>
    rw [List.cons_append, splitFirstAux]
    rw [if_neg (by intro h; subst h; exact hk (List.mem_cons_self ':' cs))]
    rw [ih (fun hx => hk (List.mem_cons_of_mem c hx)) (c :: acc)]
    simp

theorem pyStripChars_cons_space (l : List Char) :
    pyStripChars (' ' :: l) = pyStripChars l := by
  rw [pyStripChars, pyStripChars, List.dropWhile_cons, if_pos (by decide)]

theorem pyStrip_mk_cons_space (val : String) :
    pyStrip ⟨' ' :: val.data⟩ = pyStrip val := by
  simp only [pyStrip]
  exact congrArg String.mk (pyStripChars_cons_space val.data)

theorem dictGet_set_self (d : List (String × String)) (k v dflt : String) :
    dictGet (dictSet d k v) k dflt = v := by
  unfold dictGet dictSet
  rw [List.find?_cons_of_pos d
    (show (fun (p : String × String) => p.1 == k) (k, v) = true by simp)]

theorem dictGet_set_ne (d : List (String × String)) (k' k v dflt : String)
    (h : k' ≠ k) :
    dictGet (dictSet d k' v) k dflt = dictGet d k dflt := by
  unfold dictGet dictSet
  rw [List.find?_cons_of_neg d
    (show ¬ (fun (p : String × String) => p.1 == k) (k', v) = true by simp [h])]

theorem parseLine_keyval (info : List (String × String)) (key val line : String)
    (hk : ':' ∉ key.data)
    (hneutral : pyStrip (pyLstrip ['-', ' '] key) = key)
    (hline : line.data = key.data ++ ':' :: ' ' :: val.data) :
    parseLine info line = dictSet info key (pyStrip val) := by
  simp only [parseLine]
  rw [if_pos (by
    rw [hline]
    exact List.mem_append_right _ (List.mem_cons_self _ _))]
  have hsplit : splitFirstColon line = (key, ⟨' ' :: val.data⟩) := by
    simp only [splitFirstColon, hline]
    rw [splitFirstAux_no_colon key.data hk (' ' :: val.data) []]
    simp
  rw [hsplit, hneutral, pyStrip_mk_cons_space]

/-- No character of the string is a `splitlines` line terminator. -/
def noTermStr (s : String) : Prop := ∀ c ∈ s.data, isLineTerm c = false

instance (s : String) : Decidable (noTermStr s) := by
  unfold noTermStr; infer_instance

theorem noTermStr_append (a b : String) (ha : noTermStr a) (hb : noTermStr b) :
    noTermStr (a ++ b) := by
  intro c hc
  rw [String.data_append] at hc
  rcases List.mem_append.mp hc with h | h
  · exact ha c h
  · exact hb c h

/-- C6 counterexample. A tag with an embedded newline (and no
surrounding whitespace) does not survive the write/parse round trip: the
parsed `DestVersion` is only the first physical line of the tag. -/
theorem c6_counterexample :
    dictGet (parse_release_body
        (write_sha_file "1.2.3\nx" "http://x" "s" "m" "" "" "t"))
      "DestVersion" "" ≠ "1.2.3\nx" := by decide

/-- C6 (amended). Writing a sidecar and parsing it back recovers `tag`,
`md5` and `sha256` verbatim, provided the three values carry no surrounding
whitespace and — the amendment — no written field value (tag, md5, sha256,
content length, last-modified, timestamp, download link) contains a line
terminator, since an embedded newline splits a field across physical lines. -/
theorem c6_sidecar_roundtrip (tag dl sha md5 size lm ts : String)
    (htag1 : pyStrip tag = tag) (hmd1 : pyStrip md5 = md5)
    (hsha1 : pyStrip sha = sha)
    (htag2 : noTermStr tag) (hmd2 : noTermStr md5) (hsha2 : noTermStr sha)
    (hsize2 : noTermStr size) (hlm2 : noTermStr lm) (hts2 : noTermStr ts)
    (hdl2 : noTermStr dl) :
    dictGet (parse_release_body (write_sha_file tag dl sha md5 size lm ts))
      "DestVersion" "" = tag ∧
    dictGet (parse_release_body (write_sha_file tag dl sha md5 size lm ts))
      "Md5" "" = md5 ∧
    dictGet (parse_release_body (write_sha_file tag dl sha md5 size lm ts))
      "Sha256" "" = sha := by
  by_cases hsz : size = "" <;> by_cases hlmm : lm = ""
  · simp only [write_sha_file, if_neg (not_ne_iff.mpr hsz),
      if_neg (not_ne_iff.mpr hlmm), List.cons_append, List.nil_append,
      List.append_nil, parse_release_body]
    rw [pySplitlines_join
      ["DestVersion: " ++ tag, "Md5: " ++ md5, "Sha256: " ++ sha,
       "UpdateTime: " ++ ts ++ " (UTC)", "DownloadFrom: " ++ dl]
      (by
        intro s hs
        simp only [List.mem_cons, List.not_mem_nil, or_false] at hs
        rcases hs with rfl | rfl | rfl | rfl | rfl
        · exact noTermStr_append _ _ (by decide) htag2
        · exact noTermStr_append _ _ (by decide) hmd2
        · exact noTermStr_append _ _ (by decide) hsha2
        · exact noTermStr_append _ _ (noTermStr_append _ _ (by decide) hts2)
            (by decide)
        · exact noTermStr_append _ _ (by decide) hdl2)
      (by simp)]
    simp only [List.foldl_cons, List.foldl_nil]
    rw [parseLine_keyval _ "DestVersion" tag ("DestVersion: " ++ tag)
      (by decide) (by decide) rfl]
    rw [parseLine_keyval _ "Md5" md5 ("Md5: " ++ md5) (by decide) (by decide) rfl]
    rw [parseLine_keyval _ "Sha256" sha ("Sha256: " ++ sha)
      (by decide) (by decide) rfl]
    rw [parseLine_keyval _ "UpdateTime" (ts ++ " (UTC)")
      ("UpdateTime: " ++ ts ++ " (UTC)") (by decide) (by decide) rfl]
    rw [parseLine_keyval _ "DownloadFrom" dl ("DownloadFrom: " ++ dl)
      (by decide) (by decide) rfl]
    refine ⟨?_, ?_, ?_⟩
    · rw [dictGet_set_ne _ _ _ _ _ (by decide), dictGet_set_ne _ _ _ _ _ (by decide),
        dictGet_set_ne _ _ _ _ _ (by decide), dictGet_set_ne _ _ _ _ _ (by decide),
        dictGet_set_self]
      exact htag1
    · rw [dictGet_set_ne _ _ _ _ _ (by decide), dictGet_set_ne _ _ _ _ _ (by decide),
        dictGet_set_ne _ _ _ _ _ (by decide), dictGet_set_self]
      exact hmd1
    · rw [dictGet_set_ne _ _ _ _ _ (by decide), dictGet_set_ne _ _ _ _ _ (by decide),
        dictGet_set_self]
      exact hsha1
  · simp only [write_sha_file, if_neg (not_ne_iff.mpr hsz), if_pos hlmm,
      List.cons_append, List.nil_append, List.append_nil, parse_release_body]
    rw [pySplitlines_join
      ["DestVersion: " ++ tag, "Md5: " ++ md5, "Sha256: " ++ sha,
       "LastModified: " ++ lm, "UpdateTime: " ++ ts ++ " (UTC)",
       "DownloadFrom: " ++ dl]
      (by
        intro s hs
        simp only [List.mem_cons, List.not_mem_nil, or_false] at hs
        rcases hs with rfl | rfl | rfl | rfl | rfl | rfl
        · exact noTermStr_append _ _ (by decide) htag2
        · exact noTermStr_append _ _ (by decide) hmd2
        · exact noTermStr_append _ _ (by decide) hsha2
        · exact noTermStr_append _ _ (by decide) hlm2
        · exact noTermStr_append _ _ (noTermStr_append _ _ (by decide) hts2)
            (by decide)
        · exact noTermStr_append _ _ (by decide) hdl2)
      (by simp)]
    simp only [List.foldl_cons, List.foldl_nil]
    rw [parseLine_keyval _ "DestVersion" tag ("DestVersion: " ++ tag)
      (by decide) (by decide) rfl]
    rw [parseLine_keyval _ "Md5" md5 ("Md5: " ++ md5) (by decide) (by decide) rfl]
    rw [parseLine_keyval _ "Sha256" sha ("Sha256: " ++ sha)
      (by decide) (by decide) rfl]
    rw [parseLine_keyval _ "LastModified" lm ("LastModified: " ++ lm)
      (by decide) (by decide) rfl]
    rw [parseLine_keyval _ "UpdateTime" (ts ++ " (UTC)")
      ("UpdateTime: " ++ ts ++ " (UTC)") (by decide) (by decide) rfl]
    rw [parseLine_keyval _ "DownloadFrom" dl ("DownloadFrom: " ++ dl)
      (by decide) (by decide) rfl]
    refine ⟨?_, ?_, ?_⟩
    · rw [dictGet_set_ne _ _ _ _ _ (by decide), dictGet_set_ne _ _ _ _ _ (by decide),
        dictGet_set_ne _ _ _ _ _ (by decide), dictGet_set_ne _ _ _ _ _ (by decide),
        dictGet_set_ne _ _ _ _ _ (by decide), dictGet_set_self]
      exact htag1
    · rw [dictGet_set_ne _ _ _ _ _ (by decide), dictGet_set_ne _ _ _ _ _ (by decide),
        dictGet_set_ne _ _ _ _ _ (by decide), dictGet_set_ne _ _ _ _ _ (by decide),
        dictGet_set_self]
      exact hmd1
    · rw [dictGet_set_ne _ _ _ _ _ (by decide), dictGet_set_ne _ _ _ _ _ (by decide),
        dictGet_set_ne _ _ _ _ _ (by decide), dictGet_set_self]
      exact hsha1
  · simp only [write_sha_file, if_pos hsz, if_neg (not_ne_iff.mpr hlmm),
      List.cons_append, List.nil_append, List.append_nil, parse_release_body]
    rw [pySplitlines_join
      ["DestVersion: " ++ tag, "Md5: " ++ md5, "Sha256: " ++ sha,
       "ContentLength: " ++ size, "UpdateTime: " ++ ts ++ " (UTC)",
       "DownloadFrom: " ++ dl]
      (by
        intro s hs
        simp only [List.mem_cons, List.not_mem_nil, or_false] at hs
        rcases hs with rfl | rfl | rfl | rfl | rfl | rfl
        · exact noTermStr_append _ _ (by decide) htag2
        · exact noTermStr_append _ _ (by decide) hmd2
        · exact noTermStr_append _ _ (by decide) hsha2
        · exact noTermStr_append _ _ (by decide) hsize2
        · exact noTermStr_append _ _ (noTermStr_append _ _ (by decide) hts2)
            (by decide)
        · exact noTermStr_append _ _ (by decide) hdl2)
      (by simp)]
    simp only [List.foldl_cons, List.foldl_nil]
    rw [parseLine_keyval _ "DestVersion" tag ("DestVersion: " ++ tag)
      (by decide) (by decide) rfl]
    rw [parseLine_keyval _ "Md5" md5 ("Md5: " ++ md5) (by decide) (by decide) rfl]
    rw [parseLine_keyval _ "Sha256" sha ("Sha256: " ++ sha)
      (by decide) (by decide) rfl]
    rw [parseLine_keyval _ "ContentLength" size ("ContentLength: " ++ size)
      (by decide) (by decide) rfl]
    rw [parseLine_keyval _ "UpdateTime" (ts ++ " (UTC)")
      ("UpdateTime: " ++ ts ++ " (UTC)") (by decide) (by decide) rfl]
    rw [parseLine_keyval _ "DownloadFrom" dl ("DownloadFrom: " ++ dl)
      (by decide) (by decide) rfl]
    refine ⟨?_, ?_, ?_⟩
    · rw [dictGet_set_ne _ _ _ _ _ (by decide), dictGet_set_ne _ _ _ _ _ (by decide),
        dictGet_set_ne _ _ _ _ _ (by decide), dictGet_set_ne _ _ _ _ _ (by decide),
        dictGet_set_ne _ _ _ _ _ (by decide), dictGet_set_self]
      exact htag1
    · rw [dictGet_set_ne _ _ _ _ _ (by decide), dictGet_set_ne _ _ _ _ _ (by decide),
        dictGet_set_ne _ _ _ _ _ (by decide), dictGet_set_ne _ _ _ _ _ (by decide),
        dictGet_set_self]
      exact hmd1
    · rw [dictGet_set_ne _ _ _ _ _ (by decide), dictGet_set_ne _ _ _ _ _ (by decide),
        dictGet_set_ne _ _ _ _ _ (by decide), dictGet_set_self]
      exact hsha1
  · simp only [write_sha_file, if_pos hsz, if_pos hlmm,
      List.cons_append, List.nil_append, List.append_nil, parse_release_body]
    rw [pySplitlines_join
      ["DestVersion: " ++ tag, "Md5: " ++ md5, "Sha256: " ++ sha,
       "ContentLength: " ++ size, "LastModified: " ++ lm,
       "UpdateTime: " ++ ts ++ " (UTC)", "DownloadFrom: " ++ dl]
      (by
        intro s hs
        simp only [List.mem_cons, List.not_mem_nil, or_false] at hs
        rcases hs with rfl | rfl | rfl | rfl | rfl | rfl | rfl
        · exact noTermStr_append _ _ (by decide) htag2
        · exact noTermStr_append _ _ (by decide) hmd2
        · exact noTermStr_append _ _ (by decide) hsha2
        · exact noTermStr_append _ _ (by decide) hsize2
        · exact noTermStr_append _ _ (by decide) hlm2
        · exact noTermStr_append _ _ (noTermStr_append _ _ (by decide) hts2)
            (by decide)
        · exact noTermStr_append _ _ (by decide) hdl2)
      (by simp)]
    simp only [List.foldl_cons, List.foldl_nil]
    rw [parseLine_keyval _ "DestVersion" tag ("DestVersion: " ++ tag)
      (by decide) (by decide) rfl]
    rw [parseLine_keyval _ "Md5" md5 ("Md5: " ++ md5) (by decide) (by decide) rfl]
    rw [parseLine_keyval _ "Sha256" sha ("Sha256: " ++ sha)
      (by decide) (by decide) rfl]
    rw [parseLine_keyval _ "ContentLength" size ("ContentLength: " ++ size)
      (by decide) (by decide) rfl]
    rw [parseLine_keyval _ "LastModified" lm ("LastModified: " ++ lm)
      (by decide) (by decide) rfl]
    rw [parseLine_keyval _ "UpdateTime" (ts ++ " (UTC)")
      ("UpdateTime: " ++ ts ++ " (UTC)") (by decide) (by decide) rfl]
    rw [parseLine_keyval _ "DownloadFrom" dl ("DownloadFrom: " ++ dl)
      (by decide) (by decide) rfl]
    refine ⟨?_, ?_, ?_⟩
    · rw [dictGet_set_ne _ _ _ _ _ (by decide), dictGet_set_ne _ _ _ _ _ (by decide),
        dictGet_set_ne _ _ _ _ _ (by decide), dictGet_set_ne _ _ _ _ _ (by decide),
        dictGet_set_ne _ _ _ _ _ (by decide), dictGet_set_ne _ _ _ _ _ (by decide),
        dictGet_set_self]
      exact htag1
    · rw [dictGet_set_ne _ _ _ _ _ (by decide), dictGet_set_ne _ _ _ _ _ (by decide),
        dictGet_set_ne _ _ _ _ _ (by decide), dictGet_set_ne _ _ _ _ _ (by decide),
        dictGet_set_ne _ _ _ _ _ (by decide), dictGet_set_self]
      exact hmd1
    · rw [dictGet_set_ne _ _ _ _ _ (by decide), dictGet_set_ne _ _ _ _ _ (by decide),
        dictGet_set_ne _ _ _ _ _ (by decide), dictGet_set_ne _ _ _ _ _ (by decide),
        dictGet_set_self]
      exact hsha1

/-- Witness for `c6_sidecar_roundtrip` at concrete sidecar fields. -/
theorem c6_sidecar_roundtrip_witness :
    pyStrip "1.2.3" = "1.2.3" ∧ noTermStr "1.2.3" ∧
    (dictGet (parse_release_body (write_sha_file "1.2.3" "http://dl/x.dmg"
        "aa11" "bb22" "123" "Mon, 01 Jan 2026" "2026-01-01 00:00:00"))
      "DestVersion" "" = "1.2.3" ∧
    dictGet (parse_release_body (write_sha_file "1.2.3" "http://dl/x.dmg"
        "aa11" "bb22" "123" "Mon, 01 Jan 2026" "2026-01-01 00:00:00"))
      "Md5" "" = "bb22" ∧
    dictGet (parse_release_body (write_sha_file "1.2.3" "http://dl/x.dmg"
        "aa11" "bb22" "123" "Mon, 01 Jan 2026" "2026-01-01 00:00:00"))
      "Sha256" "" = "aa11") :=
  ⟨by decide, by decide,
   c6_sidecar_roundtrip "1.2.3" "http://dl/x.dmg" "aa11" "bb22" "123"
     "Mon, 01 Jan 2026" "2026-01-01 00:00:00"
     (by decide) (by decide) (by decide) (by decide) (by decide) (by decide)
     (by decide) (by decide) (by decide) (by decide)⟩
